import Mathlib

/-!
Verification of the quarterly-imputation engine of the `calculations` repository.

The development shallowly embeds the Python source:

* `models/financial_data.py`            → `QuarterlyData` and its methods
* `repositories/financial_repository.py`→ `findQuarterlyConcept`, `rootParentInfo`,
  `findMatchingAnnualConcept`, `getQuarterlyDataForConceptByNameAndPath`,
  `checkQ4ExistsByNameAndPath`, `getAnnualFilingMetadataByNameAndPath`, `insertQ4Value`
* `services/q4_calculation_service.py`  → `calculateQ4ForConceptByNameAndPath`
* `services/cashflow_fix_service.py`    → `fixFiscalYear`
* `services/gross_profit_service.py`    → `ensureGrossProfitConceptExists`,
  `calcAndInsertQuarterlyValue`
* `check_point_in_time.py`              → `pointInTimePatterns`, `isPointInTime`

MongoDB collections are modelled as lists of records; `find_one` is `List.find?`
(first match in insertion order), `find` is `List.filter`, `insert_one` appends,
and numeric values are rationals (the source does plain arithmetic on the stored
decimals).  ObjectIds are modelled as naturals.
-/

namespace Calculations

/-- Split a character list at `'.'`, Python `s.split('.')` on the remaining
characters: `acc` holds the current segment reversed. -/
def splitDotAux : List Char → List Char → List String
  | [], acc => [String.mk acc.reverse]
  | c :: rest, acc =>
    if c == '.' then String.mk acc.reverse :: splitDotAux rest []
    else splitDotAux rest (c :: acc)

/-- Python `s.split('.')`, used by the source on hierarchy paths
(`"001.002".split('.') = ["001", "002"]`, `"".split('.') = [""]`). -/
def splitDot (s : String) : List String :=
  splitDotAux s.toList []

/-- Lowercase a string character by character, as Python `str.lower` does for the
ASCII identifiers and labels handled by the repository. -/
def lowerStr (s : String) : String :=
  String.mk (s.toList.map Char.toLower)

/-- Contiguous-substring test on character lists, the meaning of Python's
`pat in hay` for strings. -/
def isSubstr (pat hay : List Char) : Bool :=
  match hay with
  | [] => pat.isEmpty
  | _ :: t => List.isPrefixOf pat hay || isSubstr pat t

/-- Embeds `pattern.lower() in hay.lower()` from `check_point_in_time.py`. -/
def lowerContains (hay pat : String) : Bool :=
  isSubstr (lowerStr pat).toList (lowerStr hay).toList

/-- The fixed indicator list `point_in_time_patterns` of
`check_point_in_time.py`, lines 21-29. -/
def pointInTimePatterns : List String :=
  [ "CashCashEquivalentsRestrictedCashAndRestrictedCashEquivalents"
  , "EndOfYear"
  , "EndOfPeriod"
  , "BeginningOfYear"
  , "BeginningOfPeriod"
  , "Outstanding"
  , "Balance" ]

/-- The per-concept classification loop of `check_point_in_time_concepts`
(`check_point_in_time.py`, lines 58-72): scan the fixed pattern list and stop at
the first pattern that is a case-insensitive substring of the qualified name or
of the label. -/
def isPointInTime (conceptName label : String) : Bool :=
  pointInTimePatterns.any fun p => lowerContains conceptName p || lowerContains label p

/-- A concept document of `normalized_concepts_quarterly` /
`normalized_concepts_annual`, restricted to the fields the engine reads.
`dimensionMember` is `dimensions["explicitMember"]` when the `dimensions`
sub-document carries that key, `none` otherwise. -/
structure Concept where
  oid : Nat
  concept : String
  companyCik : String
  statementType : String
  path : String
  label : String
  dimensionConcept : Bool
  dimensionMember : Option String
  deriving Repr, DecidableEq

/-- A document of `concept_values_quarterly`, restricted to the fields the
engine reads and writes.  `note` is the provenance note stored inside the
reporting period of calculated facts. -/
structure QuarterlyFact where
  conceptId : Nat
  companyCik : String
  statementType : String
  fiscalYear : Int
  quarter : Nat
  value : Rat
  calculated : Bool
  note : Option String
  deriving Repr, DecidableEq

/-- A document of `concept_values_annual`, restricted to the fields the engine
reads. -/
structure AnnualFact where
  conceptId : Nat
  companyCik : String
  statementType : String
  fiscalYear : Int
  value : Rat
  deriving Repr, DecidableEq

/-- The four MongoDB collections the Q4 engine touches. -/
structure DB where
  conceptsQuarterly : List Concept
  conceptsAnnual : List Concept
  valuesQuarterly : List QuarterlyFact
  valuesAnnual : List AnnualFact
  deriving Repr, DecidableEq

/-- Embeds `QuarterlyData` from `models/financial_data.py`. -/
structure QuarterlyData where
  conceptId : Option Nat
  companyCik : String
  fiscalYear : Int
  q1Value : Option Rat := none
  q2Value : Option Rat := none
  q3Value : Option Rat := none
  annualValue : Option Rat := none
  deriving Repr, DecidableEq

/-- Embeds `QuarterlyData.has_complete_quarterly_data`. -/
def QuarterlyData.hasCompleteQuarterlyData (qd : QuarterlyData) : Bool :=
  qd.q1Value.isSome && qd.q2Value.isSome && qd.q3Value.isSome

/-- Embeds `QuarterlyData.has_annual_value`. -/
def QuarterlyData.hasAnnualValue (qd : QuarterlyData) : Bool :=
  qd.annualValue.isSome

/-- Embeds `QuarterlyData.can_calculate_q4` (`models/financial_data.py`, lines 70-77).
The source returns `True` unconditionally: its docstring says "Q4 can always be
calculated.  Any null or missing values are treated as 0." -/
def QuarterlyData.canCalculateQ4 (_qd : QuarterlyData) : Bool :=
  true

/-- Embeds `QuarterlyData.calculate_q4` (`models/financial_data.py`, lines 79-92):
`annual - (q1 + q2 + q3)` with every `None` replaced by 0. -/
def QuarterlyData.calculateQ4 (qd : QuarterlyData) : Rat :=
  (qd.annualValue.getD 0) - ((qd.q1Value.getD 0) + (qd.q2Value.getD 0) + (qd.q3Value.getD 0))

/-- The base query of `FinancialDataRepository._find_quarterly_concept`:
company, statement type and concept name (callers always pass a name). -/
def baseMatch (cik st name : String) (c : Concept) : Bool :=
  c.companyCik == cik && c.statementType == st && c.concept == name

/-- Embeds `FinancialDataRepository._find_quarterly_concept`
(`repositories/financial_repository.py`, lines 29-90), for the call shape the
services use: a concept name is always supplied and `cpath` may be the empty
string (falsy in Python, so the name-only branch runs).  With a non-empty path
the source first looks the path up in the annual catalog and, when that annual
concept carries a dimension member, picks the quarterly candidate with the same
member; otherwise it requires an exact quarterly path match and returns `None`
when there is none. -/
def findQuarterlyConcept (db : DB) (cik st name cpath : String) : Option Concept :=
  if cpath != "" then
    let annualByPath := db.conceptsAnnual.find? fun c =>
      c.concept == name && c.companyCik == cik && c.statementType == st && c.path == cpath
    let byMember : Option Concept :=
      match annualByPath with
      | some ac =>
        match ac.dimensionMember with
        | some m =>
          (db.conceptsQuarterly.filter (baseMatch cik st name)).find? fun cand =>
            cand.dimensionMember == some m
        | none => none
      | none => none
    match byMember with
    | some c => some c
    | none =>
      db.conceptsQuarterly.find? fun c => baseMatch cik st name c && c.path == cpath
  else
    db.conceptsQuarterly.find? (baseMatch cik st name)

/-- Embeds `FinancialDataRepository._get_root_parent_concept_info`
(`repositories/financial_repository.py`, lines 94-142): take the first segment
of the concept's path, look the root concept up in the primary collection and
then in the other one, and return its id and name.  `primaryQuarterly` selects
which catalog plays the role of `collection_name`. -/
def rootParentInfo (db : DB) (primaryQuarterly : Bool) (c : Concept) :
    Option Nat × Option String :=
  if c.path == "" then (none, none)
  else
    let rootPath := (splitDot c.path).headD ""
    let findRoot := fun (l : List Concept) => l.find? fun r =>
      r.path == rootPath && r.companyCik == c.companyCik && r.statementType == c.statementType
    let primary := if primaryQuarterly then db.conceptsQuarterly else db.conceptsAnnual
    let secondary := if primaryQuarterly then db.conceptsAnnual else db.conceptsQuarterly
    match findRoot primary with
    | some r => (some r.oid, some r.concept)
    | none =>
      match findRoot secondary with
      | some r => (some r.oid, some r.concept)
      | none => (none, none)

/-- The annual candidates sharing the qualified name, company and statement
type (`all_matches` in `_find_matching_annual_concept`). -/
def allNameMatches (db : DB) (name cik st : String) : List Concept :=
  db.conceptsAnnual.filter fun c =>
    c.concept == name && c.companyCik == cik && c.statementType == st

/-- Priority 1 of the resolver: the quarterly concept carries
`dimensions.explicitMember` and the candidate carries the identical member. -/
def memberRule (qc c : Concept) : Bool :=
  match qc.dimensionMember with
  | some m => c.dimensionMember == some m
  | none => false

/-- The two-segment path-prefix rule of the resolver (priority 4 in the source
comments): both paths have at least two segments and agree on the first two;
candidates with an empty path are skipped. -/
def pathPrefixRule (qc c : Concept) : Bool :=
  c.path != "" &&
    (decide (2 ≤ (splitDot qc.path).length) &&
     decide (2 ≤ (splitDot c.path).length) &&
     (splitDot qc.path).take 2 == (splitDot c.path).take 2)

/-- Embeds `FinancialDataRepository._find_matching_annual_concept`
(`repositories/financial_repository.py`, lines 144-238).  A sole same-named
candidate is returned as is; with several candidates the quarterly concept is
fetched (or taken from the argument) and the priority rules run: dimension
member, exact path, root parent among dimensional candidates (only when both
root-parent id and a non-empty root-parent name were supplied — Python
truthiness), exact label, two-segment path prefix (only for a non-empty
quarterly path); if the quarterly concept cannot be found the first candidate
is returned, and if no rule fires the result is `None`. -/
def findMatchingAnnualConcept (db : DB) (name cik st : String)
    (qRootParentId : Option Nat) (qRootParentName : Option String)
    (qConceptArg : Option Concept) : Option Concept :=
  let allMatches := allNameMatches db name cik st
  if allMatches.isEmpty then none
  else if allMatches.length == 1 then allMatches.head?
  else
    let qConcept := match qConceptArg with
      | some q => some q
      | none => db.conceptsQuarterly.find? fun c =>
          c.concept == name && c.companyCik == cik && c.statementType == st
    match qConcept with
    | none => allMatches.head?
    | some qc =>
      match allMatches.find? (memberRule qc) with
      | some c => some c
      | none =>
      match allMatches.find? (fun c => c.path == qc.path) with
      | some c => some c
      | none =>
      let byRoot : Option Concept :=
        match qRootParentId, qRootParentName with
        | some _, some rpn =>
          if rpn != "" then
            (allMatches.filter (·.dimensionConcept)).find? fun c =>
              (rootParentInfo db false c).2 == some rpn
          else none
        | _, _ => none
      match byRoot with
      | some c => some c
      | none =>
      match allMatches.find? (fun c => c.label == qc.label) with
      | some c => some c
      | none =>
      if qc.path != "" then
        allMatches.find? (pathPrefixRule qc)
      else none

/-- Embeds `FinancialDataRepository._map_quarterly_values`
(`repositories/financial_repository.py`, lines 240-251). -/
def mapQuarterlyValues (qd : QuarterlyData) (vals : List QuarterlyFact) : QuarterlyData :=
  vals.foldl
    (fun acc v =>
      if v.quarter == 1 then { acc with q1Value := some v.value }
      else if v.quarter == 2 then { acc with q2Value := some v.value }
      else if v.quarter == 3 then { acc with q3Value := some v.value }
      else acc)
    qd

/-- The annual-value selection step of
`get_quarterly_data_for_concept_by_name_and_path`
(`repositories/financial_repository.py`, lines 329-342): the annual facts of
the resolved annual concept are fetched only when the quarterly concept is not
dimensional or the resolved concept's qualified name equals the quarterly
concept's name; otherwise the annual value is treated as absent. -/
def annualValuesForQ4 (valuesAnnual : List AnnualFact) (qc : Concept)
    (annualConcept : Option Concept) (conceptName cik : String) (fy : Int) :
    List AnnualFact :=
  match annualConcept with
  | some ac =>
    let isDimensional := qc.dimensionConcept
    let isExactMatch := ac.concept == conceptName
    if !isDimensional || isExactMatch then
      valuesAnnual.filter fun v =>
        v.conceptId == ac.oid && v.companyCik == cik && v.fiscalYear == fy
    else []
  | none => []

/-- Embeds `FinancialDataRepository.get_quarterly_data_for_concept_by_name_and_path`
(`repositories/financial_repository.py`, lines 282-356). -/
def getQuarterlyDataForConceptByNameAndPath (db : DB) (name cpath cik : String)
    (fy : Int) (st : String) : QuarterlyData :=
  match findQuarterlyConcept db cik st name cpath with
  | none => { conceptId := none, companyCik := cik, fiscalYear := fy }
  | some qc =>
    let rp := rootParentInfo db true qc
    let annualConcept := findMatchingAnnualConcept db name cik st rp.1 rp.2 (some qc)
    let qVals := db.valuesQuarterly.filter fun v =>
      v.conceptId == qc.oid && v.companyCik == cik && v.fiscalYear == fy &&
        (v.quarter == 1 || v.quarter == 2 || v.quarter == 3)
    let aVals := annualValuesForQ4 db.valuesAnnual qc annualConcept name cik fy
    let qd : QuarterlyData := { conceptId := some qc.oid, companyCik := cik, fiscalYear := fy }
    let qd := mapQuarterlyValues qd qVals
    match aVals with
    | [] => qd
    | v :: _ => { qd with annualValue := some v.value }

/-- Embeds `FinancialDataRepository.check_q4_exists_by_name_and_path`
(`repositories/financial_repository.py`, lines 476-501). -/
def checkQ4ExistsByNameAndPath (db : DB) (name cpath cik : String) (fy : Int)
    (st : String) : Bool :=
  match findQuarterlyConcept db cik st name cpath with
  | none => false
  | some qc =>
    (db.valuesQuarterly.find? fun v =>
      v.conceptId == qc.oid && v.companyCik == cik && v.fiscalYear == fy &&
        v.quarter == 4).isSome

/-- Embeds `FinancialDataRepository.get_annual_filing_metadata_by_name_and_path`
(`repositories/financial_repository.py`, lines 545-586): same concept lookup
and resolution as the quarterly-data getter (without the dimensional guard),
then the first annual fact of the resolved concept. -/
def getAnnualFilingMetadataByNameAndPath (db : DB) (name cpath cik : String)
    (fy : Int) (st : String) : Option AnnualFact :=
  match findQuarterlyConcept db cik st name cpath with
  | none => none
  | some qc =>
    let rp := rootParentInfo db true qc
    match findMatchingAnnualConcept db name cik st rp.1 rp.2 (some qc) with
    | none => none
    | some ac =>
      db.valuesAnnual.find? fun v =>
        v.conceptId == ac.oid && v.companyCik == cik && v.fiscalYear == fy

/-- Embeds `FinancialDataRepository.insert_q4_value` (`repositories/
financial_repository.py`, lines 692-700): `insert_one` appends the record. -/
def insertQ4Value (db : DB) (rec : QuarterlyFact) : DB :=
  { db with valuesQuarterly := db.valuesQuarterly ++ [rec] }

/-- The result dictionary a single Q4 calculation returns:
`{"success": ..., "reason": ...}`. -/
structure ServiceResult where
  success : Bool
  reason : Option String
  deriving Repr, DecidableEq

/-- The provenance note the service writes into every calculated Q4 record
(`q4_calculation_service.py`, line 508): there is a single note string, used
for every concept. -/
def q4Note : String := "Q4 calculated from annual 10-K minus Q1-Q3"

/-- Embeds `Q4CalculationService._create_q4_record_by_name_and_path_with_parent_matching`
(`services/q4_calculation_service.py`, lines 452-525), restricted to the fields
the engine later reads.  When the metadata lookup fails the source tries a
fallback that starts by calling `repository.get_parent_concept_name`, a method
defined nowhere in the repository; that call raises `AttributeError` at
runtime, the caller's `except` turns it into a failed result, and nothing is
written — so the metadata-absent case is modelled as `none`. -/
def createQ4Record (db : DB) (name cpath : String) (quarterlyConceptId : Nat)
    (cik : String) (fy : Int) (q4 : Rat) : Option QuarterlyFact :=
  match getAnnualFilingMetadataByNameAndPath db name cpath cik fy "income_statement" with
  | none => none
  | some meta =>
    some
      { conceptId := quarterlyConceptId
      , companyCik := cik
      , statementType := meta.statementType
      , fiscalYear := fy
      , quarter := 4
      , value := q4
      , calculated := true
      , note := some q4Note }

/-- Embeds `Q4CalculationService._calculate_q4_for_concept_by_name_and_path`
(`services/q4_calculation_service.py`, lines 326-391): fetch the quarterly
data, fail when the concept is unknown, return early when a Q4 fact already
exists, run the (always-true) `can_calculate_q4` guard whose failure branch
would list the absent members of Q1/Q2/Q3/Annual, compute
`calculate_q4`, build the Q4 record and insert it. -/
def calculateQ4ForConceptByNameAndPath (db : DB) (name cpath cik : String)
    (fy : Int) : ServiceResult × DB :=
  let qd := getQuarterlyDataForConceptByNameAndPath db name cpath cik fy "income_statement"
  match qd.conceptId with
  | none => ({ success := false, reason := some "Concept not found in quarterly data" }, db)
  | some qcid =>
    if checkQ4ExistsByNameAndPath db name cpath cik fy "income_statement" then
      ({ success := false, reason := some "Q4 value already exists" }, db)
    else if !qd.canCalculateQ4 then
      let missing :=
        (if qd.q1Value.isNone then ["Q1"] else []) ++
        (if qd.q2Value.isNone then ["Q2"] else []) ++
        (if qd.q3Value.isNone then ["Q3"] else []) ++
        (if qd.annualValue.isNone then ["Annual"] else [])
      ({ success := false
       , reason := some ("Missing values: " ++ String.intercalate ", " missing) }, db)
    else
      let q4 := qd.calculateQ4
      match createQ4Record db name cpath qcid cik fy q4 with
      | none =>
        ({ success := false
         , reason := some "Could not create Q4 record (missing annual filing metadata or parent concept mismatch)" }, db)
      | some rec =>
        ({ success := true, reason := none }, insertQ4Value db rec)

/-- A document of `concept_values_quarterly` as the cash-flow corrector sees
it: Mongo `_id` (`vid`), concept reference, the filter fields and the value. -/
structure CFFact where
  vid : Nat
  conceptId : Nat
  companyCik : String
  statementType : String
  formType : String
  fiscalYear : Int
  quarter : Nat
  value : Rat
  deriving Repr, DecidableEq

/-- Embeds `CashFlowFixService._get_quarterly_values`
(`services/cashflow_fix_service.py`, lines 179-201). -/
def getCashFlowQuarterValues (vals : List CFFact) (cik : String) (fy : Int)
    (q : Nat) : List CFFact :=
  vals.filter fun v =>
    v.companyCik == cik && v.statementType == "cash_flows" &&
      v.fiscalYear == fy && v.quarter == q && v.formType == "10-Q"

/-- One insertion into a Python dict comprehension keyed by concept id: a later
document with the same key overwrites the value, a new key is appended. -/
def dictInsert (m : List (Nat × CFFact)) (k : Nat) (v : CFFact) :
    List (Nat × CFFact) :=
  if m.any (fun kv => kv.1 == k) then
    m.map fun kv => if kv.1 == k then (k, v) else kv
  else m ++ [(k, v)]

/-- Embeds `{str(val["concept_id"]): val for val in values}` — the per-quarter lookup
dictionaries of `_fix_fiscal_year`. -/
def buildLookup (l : List CFFact) : List (Nat × CFFact) :=
  l.foldl (fun m v => dictInsert m v.conceptId v) []

/-- Dictionary read (`lookup.get(key)`). -/
def lookupGet (m : List (Nat × CFFact)) (k : Nat) : Option CFFact :=
  (m.find? fun kv => kv.1 == k).map (·.2)

/-- Embeds `update_one({"_id": vid}, {"$set": {"value": newVal}})` on the quarterly
value collection. -/
def updateValue (vals : List CFFact) (vid : Nat) (newVal : Rat) : List CFFact :=
  vals.map fun v => if v.vid == vid then { v with value := newVal } else v

/-- Embeds `CashFlowFixService._fix_fiscal_year`
(`services/cashflow_fix_service.py`, lines 78-177): the three per-quarter
lookups are built from the collection *before* any write; the Q2 pass writes
`Q2_reported − Q1_reported` in place, and the Q3 pass writes
`Q3_reported − Q2_reported` using the Q2 value from the pre-correction lookup,
never the just-written corrected Q2.  Concepts missing the predecessor quarter
are skipped. -/
def fixFiscalYear (vals : List CFFact) (cik : String) (fy : Int) : List CFFact :=
  let q1Lookup := buildLookup (getCashFlowQuarterValues vals cik fy 1)
  let q2Lookup := buildLookup (getCashFlowQuarterValues vals cik fy 2)
  let q3Lookup := buildLookup (getCashFlowQuarterValues vals cik fy 3)
  let vals1 := q2Lookup.foldl
    (fun acc kv =>
      match lookupGet q1Lookup kv.1 with
      | some q1v => updateValue acc kv.2.vid (kv.2.value - q1v.value)
      | none => acc)
    vals
  q3Lookup.foldl
    (fun acc kv =>
      match lookupGet q2Lookup kv.1 with
      | some q2v => updateValue acc kv.2.vid (kv.2.value - q2v.value)
      | none => acc)
    vals1

/-- A concept document as the gross-profit synthesizer reads and writes it. -/
structure GPConcept where
  oid : Nat
  companyCik : String
  statementType : String
  concept : String
  formType : String
  label : String
  path : String
  abstract : Bool
  dimensionConcept : Bool
  calculated : Bool
  deriving Repr, DecidableEq

/-- A value document as the gross-profit synthesizer reads and writes it. -/
structure GPValue where
  vid : Nat
  conceptId : Nat
  companyCik : String
  fiscalYear : Int
  quarter : Nat
  value : Rat
  calculated : Bool
  deriving Repr, DecidableEq

/-- Embeds `GrossProfitService._ensure_gross_profit_concept_exists`
(`services/gross_profit_service.py`, lines 246-304): look the derived concept
up by company, qualified name, statement type and path; reuse it when present,
otherwise insert a fresh record (modelled with an explicit fresh id) and report
`created = true`. -/
def ensureGrossProfitConceptExists (concepts : List GPConcept) (cik : String)
    (isAnnual : Bool) (freshId : Nat) : (GPConcept × Bool) × List GPConcept :=
  match concepts.find? (fun c =>
      c.companyCik == cik && c.concept == "us-gaap:GrossProfit" &&
        c.statementType == "income_statement" && c.path == "003") with
  | some c => ((c, false), concepts)
  | none =>
    let newC : GPConcept :=
      { oid := freshId
      , companyCik := cik
      , statementType := "income_statement"
      , concept := "us-gaap:GrossProfit"
      , formType := if isAnnual then "10-K" else "10-Q"
      , label := "Gross Profit"
      , path := "003"
      , abstract := false
      , dimensionConcept := false
      , calculated := true }
    ((newC, true), concepts ++ [newC])

/-- Embeds `find_one` on the quarterly value collection by concept id, company,
fiscal year and quarter, as the gross-profit synthesizer issues it. -/
def findGPValue (vals : List GPValue) (cid : Nat) (cik : String) (fy : Int)
    (q : Nat) : Option GPValue :=
  vals.find? fun v =>
    v.conceptId == cid && v.companyCik == cik && v.fiscalYear == fy && v.quarter == q

/-- Embeds `GrossProfitService._calculate_and_insert_quarterly_value`
(`services/gross_profit_service.py`, lines 530-624): skip when a derived value
exists and `recalculate` is off; skip silently when the revenue or the cost
input is absent; otherwise compute `revenue − cost` and either replace the
existing document in place (`replace_one` keeps the matched `_id`) or insert a
new one.  Returns the `True`/`False` inserted flag and the new collection. -/
def calcAndInsertQuarterlyValue (vals : List GPValue) (cik : String) (fy : Int)
    (quarter : Nat) (revenueCid costCid gpCid : Nat) (recalculate : Bool)
    (freshVid : Nat) : Bool × List GPValue :=
  let existing := findGPValue vals gpCid cik fy quarter
  if existing.isSome && !recalculate then (false, vals)
  else
    match findGPValue vals revenueCid cik fy quarter with
    | none => (false, vals)
    | some revDoc =>
      match findGPValue vals costCid cik fy quarter with
      | none => (false, vals)
      | some costDoc =>
        let grossProfit := revDoc.value - costDoc.value
        let doc : GPValue :=
          { vid := freshVid
          , conceptId := gpCid
          , companyCik := cik
          , fiscalYear := fy
          , quarter := quarter
          , value := grossProfit
          , calculated := true }
        match existing with
        | some ex =>
          if recalculate then
            (true, vals.map fun v => if v.vid == ex.vid then { doc with vid := ex.vid } else v)
          else
            (true, vals ++ [doc])
        | none => (true, vals ++ [doc])

/-! ### Concrete fixtures

Small concrete databases used to evaluate the embedded code on specific
inputs: a revenue concept with a complete year, the same store with Q3 absent,
a point-in-time concept, and resolver catalogs. -/

/-- A quarterly revenue concept. -/
def revQC : Concept :=
  { oid := 1
  , concept := "us-gaap:Revenues"
  , companyCik := "0000320193"
  , statementType := "income_statement"
  , path := "001"
  , label := "Revenues"
  , dimensionConcept := false
  , dimensionMember := none }

/-- The matching annual revenue concept. -/
def revAC : Concept := { revQC with oid := 2 }

/-- Helper: a stored (non-calculated) quarterly fact for `revQC`. -/
def revFact (q : Nat) (v : Rat) : QuarterlyFact :=
  { conceptId := 1
  , companyCik := "0000320193"
  , statementType := "income_statement"
  , fiscalYear := 2024
  , quarter := q
  , value := v
  , calculated := false
  , note := none }

/-- Store with Q1 = 100, Q2 = 150, Q3 absent, Annual = 500 and no Q4. -/
def dbMissingQ3 : DB :=
  { conceptsQuarterly := [revQC]
  , conceptsAnnual := [revAC]
  , valuesQuarterly := [revFact 1 100, revFact 2 150]
  , valuesAnnual :=
      [ { conceptId := 2
        , companyCik := "0000320193"
        , statementType := "income_statement"
        , fiscalYear := 2024
        , value := 500 } ] }

/-- Store with Q1 = 100, Q2 = 150, Q3 = 200, Annual = 500 and no Q4. -/
def dbFullYear : DB :=
  { dbMissingQ3 with
      valuesQuarterly := [revFact 1 100, revFact 2 150, revFact 3 200] }

/-- A quarterly cash-balance concept whose qualified name contains the
point-in-time indicator fragment
`CashCashEquivalentsRestrictedCashAndRestrictedCashEquivalents`. -/
def cashQC : Concept :=
  { oid := 5
  , concept := "us-gaap:CashCashEquivalentsRestrictedCashAndRestrictedCashEquivalents"
  , companyCik := "0001065280"
  , statementType := "income_statement"
  , path := "009"
  , label := "Cash and cash equivalents, end of period"
  , dimensionConcept := false
  , dimensionMember := none }

/-- The matching annual cash-balance concept. -/
def cashAC : Concept := { cashQC with oid := 6 }

/-- Helper: a stored quarterly fact for `cashQC`. -/
def cashFact (q : Nat) (v : Rat) : QuarterlyFact :=
  { conceptId := 5
  , companyCik := "0001065280"
  , statementType := "income_statement"
  , fiscalYear := 2024
  , quarter := q
  , value := v
  , calculated := false
  , note := none }

/-- Store for the point-in-time concept: Q1 = 100, Q2 = 110, Q3 = 120,
Annual = 130, no Q4. -/
def dbPointInTime : DB :=
  { conceptsQuarterly := [cashQC]
  , conceptsAnnual := [cashAC]
  , valuesQuarterly := [cashFact 1 100, cashFact 2 110, cashFact 3 120]
  , valuesAnnual :=
      [ { conceptId := 6
        , companyCik := "0001065280"
        , statementType := "income_statement"
        , fiscalYear := 2024
        , value := 130 } ] }

/-- A dimensional quarterly segment concept with no overlap with the annual
catalog of `dbSoleCandidate`. -/
def segQC : Concept :=
  { oid := 21
  , concept := "us-gaap:SegmentRevenue"
  , companyCik := "0001065280"
  , statementType := "income_statement"
  , path := "001.002"
  , label := "Revenue, United States segment"
  , dimensionConcept := true
  , dimensionMember := some "geo:US" }

/-- A sole same-named annual candidate sharing no path, label, root parent or
dimension member with `segQC`. -/
def segAC : Concept :=
  { oid := 22
  , concept := "us-gaap:SegmentRevenue"
  , companyCik := "0001065280"
  , statementType := "income_statement"
  , path := "007.003"
  , label := "Revenue, Europe segment"
  , dimensionConcept := true
  , dimensionMember := some "geo:EU" }

/-- Catalog holding `segQC` on the quarterly side and only `segAC` on the
annual side. -/
def dbSoleCandidate : DB :=
  { conceptsQuarterly := [segQC]
  , conceptsAnnual := [segAC]
  , valuesQuarterly := []
  , valuesAnnual := [] }

/-- A second same-named annual candidate, also sharing nothing with `segQC`. -/
def segAC2 : Concept :=
  { segAC with
      oid := 23
    , path := "008.004"
    , label := "Revenue, Asia segment"
    , dimensionMember := some "geo:AP" }

/-- Catalog with two same-named annual candidates, neither overlapping
`segQC`. -/
def dbTwoCandidates : DB :=
  { conceptsQuarterly := [segQC]
  , conceptsAnnual := [segAC, segAC2]
  , valuesQuarterly := []
  , valuesAnnual := [] }

/-- An annual sibling at path `003.001` carrying member `m:A`. -/
def sibA : Concept :=
  { oid := 31
  , concept := "us-gaap:OperatingSegmentRevenue"
  , companyCik := "0001326801"
  , statementType := "income_statement"
  , path := "003.001"
  , label := "Segment A"
  , dimensionConcept := true
  , dimensionMember := some "m:A" }

/-- An annual sibling sharing `sibA`'s path but carrying member `m:B`. -/
def sibB : Concept :=
  { sibA with oid := 32, label := "Segment B", dimensionMember := some "m:B" }

/-- A quarterly concept carrying member `m:B`, at the siblings' shared path. -/
def sibQC : Concept :=
  { sibA with oid := 30, label := "Segment Q", dimensionMember := some "m:B" }

/-- Catalog holding both annual siblings, the `m:A` one first. -/
def dbSiblings : DB :=
  { conceptsQuarterly := [sibQC]
  , conceptsAnnual := [sibA, sibB]
  , valuesQuarterly := []
  , valuesAnnual := [] }

/-! ### Theorems -/

/-- The helper `isSubstr` decides contiguous-substring containment. -/
theorem isSubstr_spec (pat hay : List Char) :
    isSubstr pat hay = true ↔ pat <:+: hay := by
  induction hay with
  | nil => simp [isSubstr, List.isEmpty_iff]
  | cons h t ih =>
    simp [isSubstr, Bool.or_eq_true, ih, List.infix_cons_iff,
      List.isPrefixOf_iff_prefix]

/-- C9.  The point-in-time classifier returns `true` if and only if some
fragment of the fixed indicator list is a case-insensitive contiguous
substring of the qualified name or of the label; it returns `false` exactly
when no fragment matches either input. -/
theorem isPointInTime_iff_pattern_hit (conceptName label : String) :
    isPointInTime conceptName label = true ↔
      ∃ p ∈ pointInTimePatterns,
        ((lowerStr p).toList <:+: (lowerStr conceptName).toList ∨
         (lowerStr p).toList <:+: (lowerStr label).toList) := by
  simp [isPointInTime, List.any_eq_true, lowerContains, Bool.or_eq_true,
    isSubstr_spec]

/-- C1 (code bug).  `can_calculate_q4` is constantly `true`, so the
missing-values branch of the service is unreachable: on a store where Q3 is
absent (Q1 = 100, Q2 = 150, Annual = 500) the operation does not fail with a
missing-values list — it reports success and persists Q4 = 250, silently
substituting zero for the missing Q3.  This contradicts the repository's own
`test_strict_validation.py`. -/
theorem q4_zero_substitution_bug :
    (∀ qd : QuarterlyData, qd.canCalculateQ4 = true) ∧
    (getQuarterlyDataForConceptByNameAndPath dbMissingQ3 "us-gaap:Revenues"
        "001" "0000320193" 2024 "income_statement").q3Value = none ∧
    (calculateQ4ForConceptByNameAndPath dbMissingQ3 "us-gaap:Revenues" "001"
        "0000320193" 2024).1.success = true ∧
    (calculateQ4ForConceptByNameAndPath dbMissingQ3 "us-gaap:Revenues" "001"
        "0000320193" 2024).2.valuesQuarterly =
      dbMissingQ3.valuesQuarterly ++
        [ { conceptId := 1
          , companyCik := "0000320193"
          , statementType := "income_statement"
          , fiscalYear := 2024
          , quarter := 4
          , value := 250
          , calculated := true
          , note := some q4Note } ] := by
  exact ⟨fun _ => rfl, by decide, by decide, by with_unfolding_all rfl⟩

/-- C4 (code bug).  The Q4 service has no point-in-time branch: on a concept
the repository's own classifier flags as point-in-time (Q1 = 100, Q2 = 110,
Q3 = 120, Annual = 130) it persists Q4 = Annual − (Q1+Q2+Q3) = −200 instead of
copying the annual value 130, and stamps it with the same provenance note used
for computed flow values, so nothing distinguishes copied from computed. -/
theorem q4_point_in_time_not_copied :
    isPointInTime cashQC.concept cashQC.label = true ∧
    (calculateQ4ForConceptByNameAndPath dbPointInTime cashQC.concept "009"
        "0001065280" 2024).1.success = true ∧
    (calculateQ4ForConceptByNameAndPath dbPointInTime cashQC.concept "009"
        "0001065280" 2024).2.valuesQuarterly =
      dbPointInTime.valuesQuarterly ++
        [ { conceptId := 5
          , companyCik := "0001065280"
          , statementType := "income_statement"
          , fiscalYear := 2024
          , quarter := 4
          , value := -200
          , calculated := true
          , note := some q4Note } ] ∧
    (-200 : Rat) ≠ 130 := by
  refine ⟨by decide, by decide, by with_unfolding_all rfl, by norm_num⟩

/-- C3 (counterexample).  With a single same-named annual candidate the
resolver returns that candidate unconditionally, even though the quarterly
concept shares no dimension member, no path, no label, no root parent and no
two-segment path prefix with it — the claimed `None` is not returned. -/
theorem resolver_sole_candidate_counterexample :
    findMatchingAnnualConcept dbSoleCandidate "us-gaap:SegmentRevenue"
        "0001065280" "income_statement" (some 21) (some "us-gaap:Revenues")
        (some segQC) = some segAC ∧
    memberRule segQC segAC = false ∧
    segAC.path ≠ segQC.path ∧
    segAC.label ≠ segQC.label ∧
    pathPrefixRule segQC segAC = false ∧
    (rootParentInfo dbSoleCandidate false segAC).2 ≠ some "us-gaap:Revenues" := by
  exact ⟨by decide, by decide, by decide, by decide, by decide, by decide⟩

/-- C3 (amended).  When two or more same-named annual candidates exist and the
quarterly concept is supplied, the resolver returns `None` as soon as no
priority rule — dimension member, exact path, root parent, label, two-segment
path prefix — selects a candidate; it does not guess.  (Per the
counterexample, a sole same-named candidate is returned unconditionally, and
with multiple candidates but no locatable quarterly concept the first
candidate is returned.) -/
theorem resolver_multi_candidate_no_rule_returns_none
    (db : DB) (name cik st : String) (rpId : Option Nat) (rpName : Option String)
    (qc : Concept)
    (hlen : 2 ≤ (allNameMatches db name cik st).length)
    (hmem : ∀ c ∈ allNameMatches db name cik st, memberRule qc c = false)
    (hpath : ∀ c ∈ allNameMatches db name cik st, c.path ≠ qc.path)
    (hroot : ∀ c ∈ allNameMatches db name cik st,
      (rootParentInfo db false c).2 ≠ rpName)
    (hlabel : ∀ c ∈ allNameMatches db name cik st, c.label ≠ qc.label)
    (hpre : ∀ c ∈ allNameMatches db name cik st, pathPrefixRule qc c = false) :
    findMatchingAnnualConcept db name cik st rpId rpName (some qc) = none := by
  have hne : allNameMatches db name cik st ≠ [] := by
    intro h
    rw [h] at hlen
    simp at hlen
  have h0 : (allNameMatches db name cik st).isEmpty = false := by
    simpa [List.isEmpty_iff] using hne
  have h1 : ((allNameMatches db name cik st).length == 1) = false := by
    simp only [beq_eq_false_iff_ne, ne_eq]
    omega
  have hm : (allNameMatches db name cik st).find? (memberRule qc) = none :=
    List.find?_eq_none.mpr fun c hc => by simp [hmem c hc]
  have hp : (allNameMatches db name cik st).find? (fun c => c.path == qc.path) = none :=
    List.find?_eq_none.mpr fun c hc => by simp [hpath c hc]
  have hl : (allNameMatches db name cik st).find? (fun c => c.label == qc.label) = none :=
    List.find?_eq_none.mpr fun c hc => by simp [hlabel c hc]
  have hpp : (allNameMatches db name cik st).find? (pathPrefixRule qc) = none :=
    List.find?_eq_none.mpr fun c hc => by simp [hpre c hc]
  rcases rpId with _ | rid <;> rcases rpName with _ | rpn
  · simp [findMatchingAnnualConcept, h0, h1, hm, hp, hl, hpp]
  · simp [findMatchingAnnualConcept, h0, h1, hm, hp, hl, hpp]
  · simp [findMatchingAnnualConcept, h0, h1, hm, hp, hl, hpp]
  · have hr : ((allNameMatches db name cik st).filter (·.dimensionConcept)).find?
        (fun c => (rootParentInfo db false c).2 == some rpn) = none := by
      refine List.find?_eq_none.mpr fun c hc => ?_
      have hcm : c ∈ allNameMatches db name cik st := (List.mem_filter.mp hc).1
      simp only [beq_iff_eq]
      exact hroot c hcm
    simp [findMatchingAnnualConcept, h0, h1, hm, hp, hl, hpp, hr]

/-- Witness for the amended C3 theorem: two same-named annual candidates with
no dimension-member, path, root-parent, label or path-prefix overlap with the
quarterly segment concept, and the resolver returns `None`. -/
theorem resolver_multi_candidate_no_rule_returns_none_witness :
    findMatchingAnnualConcept dbTwoCandidates "us-gaap:SegmentRevenue"
      "0001065280" "income_statement" (some 21) (some "us-gaap:Revenues")
      (some segQC) = none :=
  resolver_multi_candidate_no_rule_returns_none dbTwoCandidates
    "us-gaap:SegmentRevenue" "0001065280" "income_statement" (some 21)
    (some "us-gaap:Revenues") segQC (by decide) (by decide) (by decide)
    (by decide) (by decide) (by decide)

/-- C6.  Dimension-member priority: whenever the quarterly concept carries a
dimension member and some candidate among two or more same-named annual
candidates carries the identical member, the resolver returns a candidate with
that member — never a sibling with a different member — regardless of path,
root-parent, label or path-prefix relations. -/
theorem resolver_dimension_member_priority
    (db : DB) (name cik st : String) (rpId : Option Nat) (rpName : Option String)
    (qc : Concept) (m : String)
    (hqm : qc.dimensionMember = some m)
    (hlen : 2 ≤ (allNameMatches db name cik st).length)
    (hex : ∃ c ∈ allNameMatches db name cik st, c.dimensionMember = some m) :
    ∃ c, findMatchingAnnualConcept db name cik st rpId rpName (some qc) = some c ∧
      c.dimensionMember = some m := by
  have hne : allNameMatches db name cik st ≠ [] := by
    intro h
    rw [h] at hlen
    simp at hlen
  have h0 : (allNameMatches db name cik st).isEmpty = false := by
    simpa [List.isEmpty_iff] using hne
  have h1 : ((allNameMatches db name cik st).length == 1) = false := by
    simp only [beq_eq_false_iff_ne, ne_eq]
    omega
  have hsome : ((allNameMatches db name cik st).find? (memberRule qc)).isSome := by
    refine List.find?_isSome.mpr ?_
    obtain ⟨c, hcm, hcmem⟩ := hex
    exact ⟨c, hcm, by simp [memberRule, hqm, hcmem]⟩
  obtain ⟨c, hfind⟩ := Option.isSome_iff_exists.mp hsome
  have hcmem : c.dimensionMember = some m := by
    have := List.find?_some hfind
    simpa [memberRule, hqm] using this
  refine ⟨c, ?_, hcmem⟩
  simp [findMatchingAnnualConcept, h0, h1, hfind]

/-- Witness for the C6 theorem: two annual siblings share path `003.001` and
differ only in dimension member; for a quarterly concept carrying `m:B` the
resolver returns a candidate with member `m:B` (sibling `sibB`), not the
first-listed sibling `sibA`. -/
theorem resolver_dimension_member_priority_witness :
    ∃ c, findMatchingAnnualConcept dbSiblings "us-gaap:OperatingSegmentRevenue"
        "0001326801" "income_statement" none none (some sibQC) = some c ∧
      c.dimensionMember = some "m:B" :=
  resolver_dimension_member_priority dbSiblings "us-gaap:OperatingSegmentRevenue"
    "0001326801" "income_statement" none none sibQC "m:B" (by decide) (by decide)
    ⟨sibB, by decide, by decide⟩

/-- Mapping Q1–Q3 facts into a `QuarterlyData` never touches `annualValue`. -/
theorem mapQuarterlyValues_annualValue :
    ∀ (vals : List QuarterlyFact) (qd : QuarterlyData),
      (mapQuarterlyValues qd vals).annualValue = qd.annualValue
  | [], _ => rfl
  | v :: t, qd => by
    show (mapQuarterlyValues _ t).annualValue = _
    rw [mapQuarterlyValues_annualValue t]
    by_cases h1 : v.quarter == 1
    · simp [h1]
    · by_cases h2 : v.quarter == 2
      · simp [h1, h2]
      · by_cases h3 : v.quarter == 3 <;> simp [h1, h2, h3]

/-- Mapping Q1–Q3 facts into a `QuarterlyData` never touches `conceptId`. -/
theorem mapQuarterlyValues_conceptId :
    ∀ (vals : List QuarterlyFact) (qd : QuarterlyData),
      (mapQuarterlyValues qd vals).conceptId = qd.conceptId
  | [], _ => rfl
  | v :: t, qd => by
    show (mapQuarterlyValues _ t).conceptId = _
    rw [mapQuarterlyValues_conceptId t]
    by_cases h1 : v.quarter == 1
    · simp [h1]
    · by_cases h2 : v.quarter == 2
      · simp [h1, h2]
      · by_cases h3 : v.quarter == 3 <;> simp [h1, h2, h3]

/-- When the quarterly concept is found, the quarterly-data getter reports its
object id. -/
theorem getQuarterlyData_conceptId (db : DB) (name cpath cik : String)
    (fy : Int) (st : String) (qc : Concept)
    (hfq : findQuarterlyConcept db cik st name cpath = some qc) :
    (getQuarterlyDataForConceptByNameAndPath db name cpath cik fy st).conceptId =
      some qc.oid := by
  unfold getQuarterlyDataForConceptByNameAndPath
  rw [hfq]
  rcases hA : annualValuesForQ4 db.valuesAnnual qc
      (findMatchingAnnualConcept db name cik st (rootParentInfo db true qc).1
        (rootParentInfo db true qc).2 (some qc)) name cik fy with _ | ⟨v, rest⟩ <;>
    simp [hA, mapQuarterlyValues_conceptId]

/-- Any fact selected by the annual-value step comes from the annual fact
store, belongs to the resolved annual concept and matches company and fiscal
year. -/
theorem annualValuesForQ4_mem (va : List AnnualFact) (qc : Concept)
    (acO : Option Concept) (name cik : String) (fy : Int) (v : AnnualFact)
    (hv : v ∈ annualValuesForQ4 va qc acO name cik fy) :
    ∃ ac, acO = some ac ∧ v ∈ va ∧
      (v.conceptId == ac.oid && v.companyCik == cik && v.fiscalYear == fy) = true := by
  cases acO with
  | none => simp [annualValuesForQ4] at hv
  | some ac =>
    refine ⟨ac, rfl, ?_⟩
    simp only [annualValuesForQ4] at hv
    split at hv
    · exact ⟨(List.mem_filter.mp hv).1, (List.mem_filter.mp hv).2⟩
    · simp at hv

/-- If the quarterly-data getter reports an annual value, the annual
filing-metadata lookup of the record-creation step succeeds as well: both run
the same concept lookup, the same resolver and the same fact query. -/
theorem annualValue_isSome_metadata (db : DB) (name cpath cik : String)
    (fy : Int) (st : String)
    (h : (getQuarterlyDataForConceptByNameAndPath db name cpath cik fy st).annualValue.isSome) :
    (getAnnualFilingMetadataByNameAndPath db name cpath cik fy st).isSome := by
  unfold getQuarterlyDataForConceptByNameAndPath at h
  unfold getAnnualFilingMetadataByNameAndPath
  cases hfq : findQuarterlyConcept db cik st name cpath with
  | none =>
    rw [hfq] at h
    simp at h
  | some qc =>
    rw [hfq] at h
    simp only at h ⊢
    cases hac : findMatchingAnnualConcept db name cik st
        (rootParentInfo db true qc).1 (rootParentInfo db true qc).2 (some qc) with
    | none =>
      rw [hac] at h
      simp [annualValuesForQ4, mapQuarterlyValues_annualValue] at h
    | some ac =>
      rw [hac] at h
      rcases hA : annualValuesForQ4 db.valuesAnnual qc (some ac) name cik fy
          with _ | ⟨v, rest⟩
      · rw [hA] at h
        simp [mapQuarterlyValues_annualValue] at h
      · have hv : v ∈ annualValuesForQ4 db.valuesAnnual qc (some ac) name cik fy := by
          rw [hA]; exact List.mem_cons_self v rest
        obtain ⟨ac', hac', hmem, hpred⟩ :=
          annualValuesForQ4_mem db.valuesAnnual qc (some ac) name cik fy v hv
        obtain rfl : ac = ac' := by injection hac'
        exact List.find?_isSome.mpr ⟨v, hmem, hpred⟩

/-- C2.  For a concept whose Q1, Q2, Q3 and annual value are all present and
for which no Q4 fact is stored, the operation succeeds and persists exactly
one Q4 fact whose value is `Annual − (Q1 + Q2 + Q3)`, so the stored quarters
round-trip: `Q1 + Q2 + Q3 + Q4 = Annual` exactly. -/
theorem imputeQ4_flow_exact_roundtrip (db : DB) (name cpath cik : String)
    (fy : Int) (qcid : Nat) (q1 q2 q3 a : Rat)
    (hqd : getQuarterlyDataForConceptByNameAndPath db name cpath cik fy
        "income_statement" =
      { conceptId := some qcid, companyCik := cik, fiscalYear := fy,
        q1Value := some q1, q2Value := some q2, q3Value := some q3,
        annualValue := some a })
    (hnoq4 : checkQ4ExistsByNameAndPath db name cpath cik fy "income_statement" = false) :
    ∃ rec : QuarterlyFact,
      calculateQ4ForConceptByNameAndPath db name cpath cik fy =
        ({ success := true, reason := none }, insertQ4Value db rec) ∧
      rec.quarter = 4 ∧ rec.value = a - (q1 + q2 + q3) ∧
      q1 + q2 + q3 + rec.value = a := by
  have hmetaS : (getAnnualFilingMetadataByNameAndPath db name cpath cik fy
      "income_statement").isSome := by
    apply annualValue_isSome_metadata
    rw [hqd]
    rfl
  obtain ⟨meta, hmeta⟩ := Option.isSome_iff_exists.mp hmetaS
  refine ⟨{ conceptId := qcid, companyCik := cik,
            statementType := meta.statementType, fiscalYear := fy, quarter := 4,
            value := a - (q1 + q2 + q3), calculated := true,
            note := some q4Note }, ?_, rfl, rfl, by ring⟩
  simp [calculateQ4ForConceptByNameAndPath, hqd, hnoq4,
    QuarterlyData.canCalculateQ4, QuarterlyData.calculateQ4, createQ4Record, hmeta]

/-- Witness for the C2 theorem: on the complete-year store (Q1 = 100,
Q2 = 150, Q3 = 200, Annual = 500, no Q4) the operation persists Q4 = 50 and
the quarters round-trip to the annual value. -/
theorem imputeQ4_flow_exact_roundtrip_witness :
    ∃ rec : QuarterlyFact,
      calculateQ4ForConceptByNameAndPath dbFullYear "us-gaap:Revenues" "001"
          "0000320193" 2024 =
        ({ success := true, reason := none }, insertQ4Value dbFullYear rec) ∧
      rec.quarter = 4 ∧ rec.value = 500 - (100 + 150 + 200) ∧
      (100 : Rat) + 150 + 200 + rec.value = 500 :=
  imputeQ4_flow_exact_roundtrip dbFullYear "us-gaap:Revenues" "001" "0000320193"
    2024 1 100 150 200 500 (by with_unfolding_all rfl) (by decide)

/-- When the quarterly concept is found and a Q4 fact already exists, the
operation returns the `AlreadyExists` result and leaves the store untouched,
computing and writing nothing. -/
theorem service_already_exists (db : DB) (name cpath cik : String) (fy : Int)
    (qc : Concept)
    (hfq : findQuarterlyConcept db cik "income_statement" name cpath = some qc)
    (hex : checkQ4ExistsByNameAndPath db name cpath cik fy "income_statement" = true) :
    calculateQ4ForConceptByNameAndPath db name cpath cik fy =
      ({ success := false, reason := some "Q4 value already exists" }, db) := by
  have hcid := getQuarterlyData_conceptId db name cpath cik fy "income_statement" qc hfq
  simp [calculateQ4ForConceptByNameAndPath, hcid, hex]

/-- A successful run located the quarterly concept and appended exactly one Q4
fact for it (same concept id, company, fiscal year, quarter 4). -/
theorem service_success_inversion (db : DB) (name cpath cik : String) (fy : Int)
    (res : ServiceResult) (db' : DB)
    (h1 : calculateQ4ForConceptByNameAndPath db name cpath cik fy = (res, db'))
    (hs : res.success = true) :
    ∃ qc rec, findQuarterlyConcept db cik "income_statement" name cpath = some qc ∧
      rec.conceptId = qc.oid ∧ rec.companyCik = cik ∧ rec.fiscalYear = fy ∧
      rec.quarter = 4 ∧ db' = insertQ4Value db rec := by
  rcases hfq : findQuarterlyConcept db cik "income_statement" name cpath with _ | qc
  · have hcid : (getQuarterlyDataForConceptByNameAndPath db name cpath cik fy
        "income_statement").conceptId = none := by
      unfold getQuarterlyDataForConceptByNameAndPath
      rw [hfq]
    simp [calculateQ4ForConceptByNameAndPath, hcid] at h1
    simp [← h1.1] at hs
  · have hcid := getQuarterlyData_conceptId db name cpath cik fy "income_statement" qc hfq
    by_cases hex : checkQ4ExistsByNameAndPath db name cpath cik fy "income_statement" = true
    · simp [calculateQ4ForConceptByNameAndPath, hcid, hex] at h1
      simp [← h1.1] at hs
    · rw [Bool.not_eq_true] at hex
      rcases hrec : createQ4Record db name cpath qc.oid cik fy
          ((getQuarterlyDataForConceptByNameAndPath db name cpath cik fy
            "income_statement").calculateQ4) with _ | rec
      · simp [calculateQ4ForConceptByNameAndPath, hcid, hex,
          QuarterlyData.canCalculateQ4, hrec] at h1
        simp [← h1.1] at hs
      · simp only [calculateQ4ForConceptByNameAndPath, hcid, hex,
          QuarterlyData.canCalculateQ4, hrec, Bool.not_true, Bool.false_eq_true,
          if_false, Prod.mk.injEq] at h1
        rcases hmeta : getAnnualFilingMetadataByNameAndPath db name cpath cik fy
            "income_statement" with _ | meta
        · rw [createQ4Record, hmeta] at hrec
          simp at hrec
        · rw [createQ4Record, hmeta] at hrec
          have hrecEq := Option.some.inj hrec
          refine ⟨qc, rec, rfl, ?_, ?_, ?_, ?_, h1.2.symm⟩ <;>
            rw [← hrecEq]

/-- C5.  Idempotence: after any successful run, running the operation again on
the same (concept, fiscal year) terminates with the `AlreadyExists` result
before computing or writing anything — the store is returned unchanged, so the
stored Q4 value is not altered. -/
theorem imputeQ4_idempotent_second_run (db : DB) (name cpath cik : String)
    (fy : Int) (res : ServiceResult) (db' : DB)
    (h1 : calculateQ4ForConceptByNameAndPath db name cpath cik fy = (res, db'))
    (hs : res.success = true) :
    calculateQ4ForConceptByNameAndPath db' name cpath cik fy =
      ({ success := false, reason := some "Q4 value already exists" }, db') := by
  obtain ⟨qc, rec, hfq, hrcid, hrcik, hrfy, hrq, hdb'⟩ :=
    service_success_inversion db name cpath cik fy res db' h1 hs
  subst hdb'
  have hfq' : findQuarterlyConcept (insertQ4Value db rec) cik "income_statement"
      name cpath = some qc := by
    rw [show findQuarterlyConcept (insertQ4Value db rec) cik "income_statement"
          name cpath =
        findQuarterlyConcept db cik "income_statement" name cpath from rfl]
    exact hfq
  have hmem : rec ∈ (insertQ4Value db rec).valuesQuarterly := by
    simp [insertQ4Value]
  have hpred : (rec.conceptId == qc.oid && rec.companyCik == cik &&
      rec.fiscalYear == fy && rec.quarter == 4) = true := by
    simp [hrcid, hrcik, hrfy, hrq]
  have hex' : checkQ4ExistsByNameAndPath (insertQ4Value db rec) name cpath cik
      fy "income_statement" = true := by
    simp only [checkQ4ExistsByNameAndPath, hfq']
    exact List.find?_isSome.mpr ⟨rec, hmem, hpred⟩
  exact service_already_exists (insertQ4Value db rec) name cpath cik fy qc hfq' hex'

/-- Witness for the C5 theorem: run the operation on the complete-year store,
then run it again on the resulting store — the second run reports
`AlreadyExists` and returns that store unchanged. -/
theorem imputeQ4_idempotent_second_run_witness :
    calculateQ4ForConceptByNameAndPath
        (calculateQ4ForConceptByNameAndPath dbFullYear "us-gaap:Revenues" "001"
          "0000320193" 2024).2 "us-gaap:Revenues" "001" "0000320193" 2024 =
      ({ success := false, reason := some "Q4 value already exists" },
        (calculateQ4ForConceptByNameAndPath dbFullYear "us-gaap:Revenues" "001"
          "0000320193" 2024).2) :=
  imputeQ4_idempotent_second_run dbFullYear "us-gaap:Revenues" "001"
    "0000320193" 2024
    (calculateQ4ForConceptByNameAndPath dbFullYear "us-gaap:Revenues" "001"
      "0000320193" 2024).1
    (calculateQ4ForConceptByNameAndPath dbFullYear "us-gaap:Revenues" "001"
      "0000320193" 2024).2 rfl (by decide)

/-- C8.  The derived-concept synthesizer: (i) a missing revenue or cost input
makes the period a silent skip that leaves the store unchanged; (ii) an
existing derived value with `recalculate` off is left untouched; (iii) with no
existing value and both inputs present exactly one fact with
`revenue − cost` is appended; (iv) with an existing value and `recalculate` on
the fact is replaced in place under the existing document id and the store
keeps its length — never a duplicate; (v) the derived concept record, looked
up by company, qualified name, statement type and path before creation, is
created at most once: a repeated `ensure` call reports `created = false` and
leaves the catalog unchanged. -/
theorem grossProfit_synthesizer_contract :
    (∀ (vals : List GPValue) (cik : String) (fy : Int)
        (q rid cid gid fresh : Nat) (recalc : Bool),
      findGPValue vals rid cik fy q = none ∨ findGPValue vals cid cik fy q = none →
      calcAndInsertQuarterlyValue vals cik fy q rid cid gid recalc fresh =
        (false, vals)) ∧
    (∀ (vals : List GPValue) (cik : String) (fy : Int) (q rid cid gid fresh : Nat),
      (findGPValue vals gid cik fy q).isSome = true →
      calcAndInsertQuarterlyValue vals cik fy q rid cid gid false fresh =
        (false, vals)) ∧
    (∀ (vals : List GPValue) (cik : String) (fy : Int)
        (q rid cid gid fresh : Nat) (recalc : Bool) (rev cost : GPValue),
      findGPValue vals gid cik fy q = none →
      findGPValue vals rid cik fy q = some rev →
      findGPValue vals cid cik fy q = some cost →
      calcAndInsertQuarterlyValue vals cik fy q rid cid gid recalc fresh =
        (true, vals ++
          [ { vid := fresh, conceptId := gid, companyCik := cik, fiscalYear := fy
            , quarter := q, value := rev.value - cost.value, calculated := true } ])) ∧
    (∀ (vals : List GPValue) (cik : String) (fy : Int)
        (q rid cid gid fresh : Nat) (ex rev cost : GPValue),
      findGPValue vals gid cik fy q = some ex →
      findGPValue vals rid cik fy q = some rev →
      findGPValue vals cid cik fy q = some cost →
      calcAndInsertQuarterlyValue vals cik fy q rid cid gid true fresh =
        (true, vals.map fun v =>
          if v.vid == ex.vid then
            { vid := ex.vid, conceptId := gid, companyCik := cik, fiscalYear := fy
            , quarter := q, value := rev.value - cost.value, calculated := true }
          else v) ∧
      (calcAndInsertQuarterlyValue vals cik fy q rid cid gid true fresh).2.length =
        vals.length) ∧
    (∀ (concepts : List GPConcept) (cik : String) (ia : Bool) (f1 f2 : Nat),
      ∃ c, ensureGrossProfitConceptExists
          (ensureGrossProfitConceptExists concepts cik ia f1).2 cik ia f2 =
        ((c, false), (ensureGrossProfitConceptExists concepts cik ia f1).2)) := by
  refine ⟨?_, ?_, ?_, ?_, ?_⟩
  · intro vals cik fy q rid cid gid fresh recalc h
    rcases h with hrev | hcost
    · by_cases hg : ((findGPValue vals gid cik fy q).isSome && !recalc) = true <;>
        simp [calcAndInsertQuarterlyValue, hg, hrev]
    · by_cases hg : ((findGPValue vals gid cik fy q).isSome && !recalc) = true
      · simp [calcAndInsertQuarterlyValue, hg]
      · rcases hrev : findGPValue vals rid cik fy q with _ | rev <;>
          simp [calcAndInsertQuarterlyValue, hg, hrev, hcost]
  · intro vals cik fy q rid cid gid fresh h
    simp [calcAndInsertQuarterlyValue, h]
  · intro vals cik fy q rid cid gid fresh recalc rev cost hex hrev hcost
    simp [calcAndInsertQuarterlyValue, hex, hrev, hcost]
  · intro vals cik fy q rid cid gid fresh ex rev cost hex hrev hcost
    constructor
    · simp [calcAndInsertQuarterlyValue, hex, hrev, hcost]
    · simp [calcAndInsertQuarterlyValue, hex, hrev, hcost]
  · intro concepts cik ia f1 f2
    rcases hfind : concepts.find? (fun c =>
        c.companyCik == cik && c.concept == "us-gaap:GrossProfit" &&
          c.statementType == "income_statement" && c.path == "003") with _ | c
    · refine ⟨{ oid := f1, companyCik := cik, statementType := "income_statement"
              , concept := "us-gaap:GrossProfit"
              , formType := if ia then "10-K" else "10-Q"
              , label := "Gross Profit", path := "003", abstract := false
              , dimensionConcept := false, calculated := true }, ?_⟩
      simp [ensureGrossProfitConceptExists, hfind]
    · exact ⟨c, by simp [ensureGrossProfitConceptExists, hfind]⟩

/-- C7.  Cumulative-to-quarterly correction ordering: for a concept with
reported Q1, Q2 (6-month cumulative) and Q3 (9-month cumulative) values, the
corrector writes `Q2 − Q1` over the Q2 document and `Q3 − Q2_original` over
the Q3 document, where `Q2_original` is the pre-correction snapshot of Q2
taken before any write — never the just-written corrected Q2. -/
theorem cashflow_fix_q3_uses_original_q2 (cik : String) (fy : Int)
    (c v1 v2 v3 : Nat) (q1 q2 q3 : Rat)
    (h12 : v1 ≠ v2) (h13 : v1 ≠ v3) (h23 : v2 ≠ v3) :
    fixFiscalYear
      [ ⟨v1, c, cik, "cash_flows", "10-Q", fy, 1, q1⟩
      , ⟨v2, c, cik, "cash_flows", "10-Q", fy, 2, q2⟩
      , ⟨v3, c, cik, "cash_flows", "10-Q", fy, 3, q3⟩ ] cik fy =
      [ ⟨v1, c, cik, "cash_flows", "10-Q", fy, 1, q1⟩
      , ⟨v2, c, cik, "cash_flows", "10-Q", fy, 2, q2 - q1⟩
      , ⟨v3, c, cik, "cash_flows", "10-Q", fy, 3, q3 - q2⟩ ] := by
  simp [fixFiscalYear, getCashFlowQuarterValues, buildLookup, dictInsert,
    lookupGet, updateValue, h12, h13, h23, Ne.symm h12, Ne.symm h13, Ne.symm h23]

/-- C10.  The dimensional guard on annual values: for a quarterly concept
flagged dimensional, the annual-value selection returns nothing whenever the
resolved annual concept's qualified name differs from the queried name; and
the quarterly-data getter's `annualValue` is exactly the head of that guarded
selection, so a name mismatch on a dimensional concept makes the annual value
absent rather than used. -/
theorem dimensional_annual_guard :
    (∀ (va : List AnnualFact) (qc ac : Concept) (name cik : String) (fy : Int),
      qc.dimensionConcept = true → ac.concept ≠ name →
      annualValuesForQ4 va qc (some ac) name cik fy = []) ∧
    (∀ (db : DB) (name cpath cik : String) (fy : Int) (st : String) (qc : Concept),
      findQuarterlyConcept db cik st name cpath = some qc →
      (getQuarterlyDataForConceptByNameAndPath db name cpath cik fy st).annualValue =
        ((annualValuesForQ4 db.valuesAnnual qc
            (findMatchingAnnualConcept db name cik st (rootParentInfo db true qc).1
              (rootParentInfo db true qc).2 (some qc)) name cik fy).head?).map
          (fun v => v.value)) := by
  constructor
  · intro va qc ac name cik fy hdim hne
    simp [annualValuesForQ4, hdim, hne]
  · intro db name cpath cik fy st qc hfq
    unfold getQuarterlyDataForConceptByNameAndPath
    rw [hfq]
    rcases hA : annualValuesForQ4 db.valuesAnnual qc
        (findMatchingAnnualConcept db name cik st (rootParentInfo db true qc).1
          (rootParentInfo db true qc).2 (some qc)) name cik fy with _ | ⟨v, rest⟩ <;>
      simp [hA, mapQuarterlyValues_annualValue]

/-- Witness for the C7 theorem, the spec's own example: Q1 = 100,
Q2 reported = 250, Q3 reported = 390 yield corrected Q2 = 250 − 100 = 150 and
corrected Q3 = 390 − 250 = 140, subtracting the original Q2, not 150. -/
theorem cashflow_fix_q3_uses_original_q2_witness :
    fixFiscalYear
      [ ⟨1, 7, "0000320193", "cash_flows", "10-Q", 2020, 1, 100⟩
      , ⟨2, 7, "0000320193", "cash_flows", "10-Q", 2020, 2, 250⟩
      , ⟨3, 7, "0000320193", "cash_flows", "10-Q", 2020, 3, 390⟩ ] "0000320193" 2020 =
      [ ⟨1, 7, "0000320193", "cash_flows", "10-Q", 2020, 1, 100⟩
      , ⟨2, 7, "0000320193", "cash_flows", "10-Q", 2020, 2, 250 - 100⟩
      , ⟨3, 7, "0000320193", "cash_flows", "10-Q", 2020, 3, 390 - 250⟩ ] ∧
    (250 : Rat) - 100 = 150 ∧ (390 : Rat) - 250 = 140 :=
  ⟨cashflow_fix_q3_uses_original_q2 "0000320193" 2020 7 1 2 3 100 250 390
      (by decide) (by decide) (by decide),
    by norm_num, by norm_num⟩

/-- Witness for the C8 theorem: Revenue = 1000 and Cost = 400 with no existing
derived value produce exactly one appended Gross Profit fact of
1000 − 400 = 600. -/
theorem grossProfit_synthesizer_contract_witness :
    calcAndInsertQuarterlyValue
        [ ⟨1, 101, "0000320193", 2024, 1, 1000, false⟩
        , ⟨2, 102, "0000320193", 2024, 1, 400, false⟩ ]
        "0000320193" 2024 1 101 102 103 false 9 =
      (true,
        [ ⟨1, 101, "0000320193", 2024, 1, 1000, false⟩
        , ⟨2, 102, "0000320193", 2024, 1, 400, false⟩ ] ++
          [ { vid := 9, conceptId := 103, companyCik := "0000320193"
            , fiscalYear := 2024, quarter := 1
            , value := (⟨1, 101, "0000320193", 2024, 1, 1000, false⟩ : GPValue).value -
                (⟨2, 102, "0000320193", 2024, 1, 400, false⟩ : GPValue).value
            , calculated := true } ]) ∧
    (1000 : Rat) - 400 = 600 :=
  ⟨grossProfit_synthesizer_contract.2.2.1
      [ ⟨1, 101, "0000320193", 2024, 1, 1000, false⟩
      , ⟨2, 102, "0000320193", 2024, 1, 400, false⟩ ]
      "0000320193" 2024 1 101 102 103 9 false
      ⟨1, 101, "0000320193", 2024, 1, 1000, false⟩
      ⟨2, 102, "0000320193", 2024, 1, 400, false⟩
      (by with_unfolding_all rfl) (by with_unfolding_all rfl)
      (by with_unfolding_all rfl),
    by norm_num⟩

/-- Witness for the C10 theorem: a dimensional quarterly segment concept whose
resolved annual concept carries a different qualified name gets no annual
value (first conjunct), and on `dbSoleCandidate` the getter's `annualValue` is
the head of the guarded selection (second conjunct). -/
theorem dimensional_annual_guard_witness :
    annualValuesForQ4
        [ { conceptId := 40, companyCik := "0001065280"
          , statementType := "income_statement", fiscalYear := 2024, value := 500 } ]
        segQC (some { segQC with oid := 40, concept := "us-gaap:Revenues" })
        "us-gaap:SegmentRevenue" "0001065280" 2024 = [] ∧
    (getQuarterlyDataForConceptByNameAndPath dbSoleCandidate
        "us-gaap:SegmentRevenue" "001.002" "0001065280" 2024
        "income_statement").annualValue =
      ((annualValuesForQ4 dbSoleCandidate.valuesAnnual segQC
          (findMatchingAnnualConcept dbSoleCandidate "us-gaap:SegmentRevenue"
            "0001065280" "income_statement"
            (rootParentInfo dbSoleCandidate true segQC).1
            (rootParentInfo dbSoleCandidate true segQC).2 (some segQC))
          "us-gaap:SegmentRevenue" "0001065280" 2024).head?).map
        (fun v => v.value) :=
  ⟨dimensional_annual_guard.1
      [ { conceptId := 40, companyCik := "0001065280"
        , statementType := "income_statement", fiscalYear := 2024, value := 500 } ]
      segQC { segQC with oid := 40, concept := "us-gaap:Revenues" }
      "us-gaap:SegmentRevenue" "0001065280" 2024 (by decide) (by decide),
    dimensional_annual_guard.2 dbSoleCandidate "us-gaap:SegmentRevenue" "001.002"
      "0001065280" 2024 "income_statement" segQC (by decide)⟩

end Calculations
